import Mathlib

/-!
# Verification of the review-analysis pipeline

A shallow embedding of the core pipeline of the
AI-Powered-Customer-Review-Analysis repository:

* `src/01_data_cleaning.py` — `clean_reviews` (sampling, dropna,
  de-duplication, text normalization, length filter, derived features);
* `src/02_sentiment_analysis.py` — `categorize_sentiment`;
* `src/03_ai_insights.py` — `extract_topics_rule_based`,
  `categorize_review_rule_based`, `generate_executive_summary_template`.

Python strings are modelled as lists of Unicode code points (`PyStr`
= `List Nat`); Python substring membership (the `in` operator) is list
infix; `str.lower` maps ASCII upper-case code points down by 32;
`str.strip` removes leading and trailing whitespace code points.
Numeric scores are rationals.  Pandas data frames become lists of
records; row-wise column assignments become `List.map`, row filters
become `List.filter`.
-/

/-- A Python string, as its sequence of Unicode code points. -/
abbrev PyStr := List Nat

/-- Encode a Lean string literal as a `PyStr` (used to write concrete
review texts and keywords in definitions and examples). -/
def enc (s : String) : PyStr := s.data.map Char.toNat

/-- `str.lower` on a single code point: ASCII upper-case letters
(65–90) map to lower-case (97–122); everything else is unchanged.
All texts and keywords in this repository are ASCII. -/
def lowerNat (n : Nat) : Nat :=
  if 65 ≤ n ∧ n ≤ 90 then n + 32 else n

/-- `str.lower` on a whole string. -/
def lowerStr (s : PyStr) : PyStr := s.map lowerNat

/-- Whitespace code points stripped by `str.strip` (ASCII range:
tab, LF, VT, FF, CR, space). -/
def isSpaceNat (n : Nat) : Bool := n == 32 || (9 ≤ n && n ≤ 13)

/-- `str.strip`: drop leading and trailing whitespace. -/
def pyStrip (s : PyStr) : PyStr :=
  ((s.dropWhile isSpaceNat).reverse.dropWhile isSpaceNat).reverse

/-- The Python `in` operator on strings: contiguous substring
containment (`needle in hay`). -/
def strIn (needle hay : PyStr) : Bool := decide (needle <:+: hay)

/-- `any(word in text for word in keywords)`. -/
def anyKeyword (keywords : List PyStr) (text : PyStr) : Bool :=
  keywords.any (fun k => strIn k text)

/-! ## Sentiment scorer (`src/02_sentiment_analysis.py`)

`categorize_sentiment` buckets a VADER compound score into the
three-way sentiment category.  The compound score is modelled as a
rational. -/
/-- `categorize_sentiment` from `02_sentiment_analysis.py`, lines 33–40. -/
def categorize_sentiment (score : ℚ) : String :=
  if score ≥ 0.05 then "Positive"
  else if score ≤ -0.05 then "Negative"
  else "Neutral"

/-! ## Topic categorizer (`src/03_ai_insights.py`)

Contract A: `categorize_review_rule_based` — an ordered if/elif chain
over substring membership tests, first match wins, else `Other`.
Contract B: `extract_topics_rule_based` — per-topic counting over the
`topic_keywords` dictionary, without the priority short-circuit. -/
/-- Shipping/Delivery keywords of the categorizer (line 66). -/
def catKwShipping : List PyStr :=
  [enc "shipping", enc "delivery", enc "arrived", enc "package", enc "late",
   enc "delayed", enc "never received"]

/-- Customer Service keywords of the categorizer (line 68). -/
def catKwService : List PyStr :=
  [enc "customer service", enc "support", enc "refund", enc "return", enc "customer"]

/-- Product Quality keywords of the categorizer (line 70). -/
def catKwQuality : List PyStr :=
  [enc "quality", enc "defective", enc "broke", enc "broken", enc "damaged", enc "poor"]

/-- Taste/Flavor keywords of the categorizer (line 72). -/
def catKwTaste : List PyStr :=
  [enc "taste", enc "flavor", enc "bland", enc "bitter", enc "delicious",
   enc "disgusting", enc "stale"]

/-- Price/Value keywords of the categorizer (line 74). -/
def catKwPrice : List PyStr :=
  [enc "price", enc "expensive", enc "overpriced", enc "cost", enc "waste", enc "money"]

/-- Packaging keywords of the categorizer (line 76). -/
def catKwPackaging : List PyStr :=
  [enc "packaging", enc "box", enc "wrapped", enc "crushed"]

/-- `categorize_review_rule_based` from `03_ai_insights.py`, lines 58–79:
lowercase the text, then check the keyword sets in the fixed priority
order, returning the first matching category, else Other. -/
def categorize_review_rule_based (review_text : PyStr) : String :=
  if anyKeyword catKwShipping (lowerStr review_text) then "Shipping/Delivery"
  else if anyKeyword catKwService (lowerStr review_text) then "Customer Service"
  else if anyKeyword catKwQuality (lowerStr review_text) then "Product Quality"
  else if anyKeyword catKwTaste (lowerStr review_text) then "Taste/Flavor"
  else if anyKeyword catKwPrice (lowerStr review_text) then "Price/Value"
  else if anyKeyword catKwPackaging (lowerStr review_text) then "Packaging"
  else "Other"

/-- The `topic_keywords` dictionary of `extract_topics_rule_based`
(lines 17–24), in source (insertion) order. -/
def topic_keywords : List (String × List PyStr) :=
  [("Product Quality",
    [enc "quality", enc "defective", enc "broke", enc "broken", enc "damaged",
     enc "poor", enc "cheap", enc "terrible", enc "awful", enc "bad"]),
   ("Shipping/Delivery",
    [enc "shipping", enc "delivery", enc "arrived", enc "package", enc "late",
     enc "delayed", enc "never received", enc "lost", enc "weeks"]),
   ("Customer Service",
    [enc "customer service", enc "support", enc "refund", enc "return",
     enc "response", enc "contact", enc "help", enc "customer"]),
   ("Price/Value",
    [enc "price", enc "expensive", enc "overpriced", enc "cost", enc "value",
     enc "money", enc "worth", enc "waste"]),
   ("Packaging",
    [enc "packaging", enc "box", enc "wrapped", enc "container", enc "sealed",
     enc "package", enc "crushed"]),
   ("Taste/Flavor",
    [enc "taste", enc "flavor", enc "bland", enc "bitter", enc "sweet",
     enc "salty", enc "disgusting", enc "delicious", enc "stale"])]

/-- The categorizer's six keyword sets paired with their topic labels,
in the priority order of the if/elif chain (a view of the chain used to
compare Contract A with Contract B). -/
def categorizerKeywords : List (String × List PyStr) :=
  [("Shipping/Delivery", catKwShipping), ("Customer Service", catKwService),
   ("Product Quality", catKwQuality), ("Taste/Flavor", catKwTaste),
   ("Price/Value", catKwPrice), ("Packaging", catKwPackaging)]

/-! ## Contract B: ranked topic report (`extract_topics_rule_based`) -/
/-- The per-topic mention count of `extract_topics_rule_based`
(lines 27–33): how many negative texts contain at least one keyword of
the set.  The input is the `Text` column of the negative subset. -/
def topicCount (keywords : List PyStr) (df_negative : List PyStr) : Nat :=
  (df_negative.filter (fun text => anyKeyword keywords (lowerStr text))).length

/-- `topic_percentages` (lines 36–41): topics with nonzero count paired
with `count / total * 100`. -/
def topic_percentages (df_negative : List PyStr) : List (String × ℚ) :=
  topic_keywords.filterMap (fun p =>
    if 0 < topicCount p.2 df_negative then
      some (p.1, (topicCount p.2 df_negative : ℚ) / (df_negative.length : ℚ) * 100)
    else none)

/-- `sorted_topics` (line 44): stable sort, descending by percentage
(Python `sorted(..., reverse=True)` is stable). -/
def sorted_topics (df_negative : List PyStr) : List (String × ℚ) :=
  (topic_percentages df_negative).mergeSort (fun a b => decide (b.2 ≤ a.2))

/-- The entries rendered by the report loop (line 48): top five of the
sorted list. -/
def topReport (df_negative : List PyStr) : List (String × ℚ) :=
  (sorted_topics df_negative).take 5

/-- Round a rational to the nearest integer, ties to even (the
rounding used by Python fixed-point float formatting). -/
def roundHalfEven (q : ℚ) : ℤ :=
  let f := ⌊q⌋
  let r := q - f
  if r < 1/2 then f
  else if 1/2 < r then f + 1
  else if f % 2 = 0 then f else f + 1

/-- Left-pad a digit string with zeros to the given width. -/
def padZeros (width : Nat) (s : String) : String :=
  if s.length < width then
    String.mk (List.replicate (width - s.length) (Char.ofNat 48)) ++ s
  else s

/-- Python fixed-point formatting of a rational:
f-string {q:.df} with d decimal places. -/
def fmtFixed (decimals : Nat) (q : ℚ) : String :=
  let scaled := roundHalfEven (q * ((10 : ℚ) ^ decimals))
  let sign := if scaled < 0 then "-" else ""
  let a := scaled.natAbs
  if decimals = 0 then sign ++ toString a
  else sign ++ toString (a / 10 ^ decimals) ++ "." ++
    padZeros decimals (toString (a % 10 ^ decimals))

/-- The report lines built by the output loop of
`extract_topics_rule_based` (lines 47–54): four lines plus a blank per
entry, entries numbered from 1. -/
def topicReportLines : Nat → List (String × ℚ) → List String
  | _, [] => []
  | i, (topic, pct) :: rest =>
    ("TOPIC " ++ toString i ++ ": " ++ topic) ::
    ("Description: Predominantly negative mentions related to " ++ topic.toLower) ::
    "Sentiment: Negative" ::
    ("Prevalence: " ++ fmtFixed 1 pct ++ "%") ::
    "" :: topicReportLines (i + 1) rest

/-- `extract_topics_rule_based` (lines 11–56), end to end: the joined
report string over the top five ranked topics. -/
def extract_topics_rule_based (df_negative : List PyStr) : String :=
  String.intercalate "\n" (topicReportLines 1 (topReport df_negative))

/-- A concrete Negative subset of two review texts, used to witness
the topic-report properties. -/
def negExample : List PyStr :=
  [enc "terrible quality and it arrived two weeks late",
   enc "awful taste and a waste of money"]

/-! ## Cleaner (`src/01_data_cleaning.py`)

A raw row of the input CSV: the `Text` and `Score` columns (either may
be missing, i.e. NaN) and the optional `Time` column.  The calendar
features derived from `Time` (lines 54–59: `Date`/`Year`/`Month`/
`YearMonth`) are presentation of the timestamp and are not modelled;
no verified property concerns them, and they do not affect which rows
survive. -/
structure RawRecord where
  text : Option PyStr
  score : Option ℚ
  time : Option Nat
deriving DecidableEq

/-- A cleaned row: the columns of the output frame, with the appended
`review_length` and `word_count` features (still NaN-able `Option`s,
mirroring the data-frame columns). -/
structure CleanedRecord where
  text : Option PyStr
  score : Option ℚ
  time : Option Nat
  review_length : Option Nat
  word_count : Option Nat
deriving DecidableEq

/-- One step of a 64-bit linear congruential generator (Knuth MMIX
constants), the pseudo-random source of the modelled sampler. -/
def lcgNext (s : Nat) : Nat :=
  (6364136223846793005 * s + 1442695040888963407) % (2 ^ 64)

/-- Modelled from the spec: `pandas.DataFrame.sample(n, random_state)`
(line 26 of `01_data_cleaning.py`) is pandas library code, not part of
this repository.  The spec requires only that the Cleaner "draw
exactly sample_size records using a fixed seed so results are
reproducible across runs"; this models it as a deterministic seeded
draw without replacement: repeatedly pick an index from the remaining
rows using the generator state, remove the row, advance the state. -/
def sampleDraw {α : Type} : Nat → Nat → List α → List α
  | _, 0, _ => []
  | _, _ + 1, [] => []
  | s, n + 1, x :: xs =>
    (x :: xs).get ⟨s % (x :: xs).length, Nat.mod_lt _ (Nat.succ_pos _)⟩ ::
      sampleDraw (lcgNext s) n ((x :: xs).eraseIdx (s % (x :: xs).length))

/-- The sampling step of `clean_reviews` (lines 24–29): Python
truthiness — `if sample_size and sample_size < len(df)` — samples only
when `sample_size` is not `None`, not zero, and smaller than the input
count; otherwise the frame passes through unchanged.  The fixed seed
is `random_state=42`. -/
def clean_sample (sample_size : Option Nat) (df : List RawRecord) : List RawRecord :=
  match sample_size with
  | some n => if n ≠ 0 ∧ n < df.length then sampleDraw 42 n df else df
  | none => df

/-- Step 1 of `clean_reviews` (line 35): `dropna(subset=['Text', 'Score'])`. -/
def clean_dropna (df : List RawRecord) : List RawRecord :=
  df.filter (fun r => r.text.isSome && r.score.isSome)

/-- Keep the first record for each key, in input order (the semantics
of `drop_duplicates(subset=...)`); `seen` holds the keys already kept. -/
def dedupByKey {α β : Type} [DecidableEq β] (key : α → β) : List α → List β → List α
  | [], _ => []
  | x :: xs, seen =>
    if key x ∈ seen then dedupByKey key xs seen
    else x :: dedupByKey key xs (key x :: seen)

/-- Step 2 of `clean_reviews` (line 40):
`drop_duplicates(subset=['Text'])` — by the raw `Text` column, before
any normalization. -/
def clean_dedup (df : List RawRecord) : List RawRecord :=
  dedupByKey (fun r => r.text) df []

/-- Step 3 of `clean_reviews` (lines 44–45): `str.lower` then
`str.strip` on the `Text` column. -/
def clean_normalize (df : List RawRecord) : List RawRecord :=
  df.map (fun r => { r with text := r.text.map (fun t => pyStrip (lowerStr t)) })

/-- Step 4 of `clean_reviews` (line 50): keep rows whose `Text` length
exceeds 20 (`.str.len()` of a missing value is NaN, which is not
greater than 20). -/
def clean_lenFilter (df : List RawRecord) : List RawRecord :=
  df.filter (fun r =>
    match r.text with
    | some t => 20 < t.length
    | none => false)

/-- Python `len(text.split())`: number of maximal whitespace-free runs. -/
def wordCountAux : Bool → PyStr → Nat
  | _, [] => 0
  | inWord, c :: cs =>
    if isSpaceNat c then wordCountAux false cs
    else (if inWord then 0 else 1) + wordCountAux true cs

def wordCount (t : PyStr) : Nat := wordCountAux false t

/-- Step 6 of `clean_reviews` (lines 62–63): append the
`review_length` and `word_count` columns. -/
def clean_features (df : List RawRecord) : List CleanedRecord :=
  df.map (fun r =>
    ⟨r.text, r.score, r.time, r.text.map List.length, r.text.map wordCount⟩)

/-- `clean_reviews` from `01_data_cleaning.py` (lines 10–74), end to
end: sample, drop missing, de-duplicate, normalize, drop short rows,
append features. -/
def clean_reviews (sample_size : Option Nat) (df : List RawRecord) : List CleanedRecord :=
  clean_features (clean_lenFilter (clean_normalize
    (clean_dedup (clean_dropna (clean_sample sample_size df)))))

/-- A single raw record with valid text and score. -/
def dfSingleton : List RawRecord :=
  [⟨some (enc "a perfectly fine review text here"), some 3, none⟩]

/-- Three raw records with valid text and score. -/
def dfThree : List RawRecord :=
  [⟨some (enc "first review body is long enough here"), some 5, none⟩,
   ⟨some (enc "second review body is long enough too"), some 2, none⟩,
   ⟨some (enc "third review body is also long enough"), some 4, none⟩]

/-- Two raw records whose texts differ only in letter case. -/
def dfCaseDup : List RawRecord :=
  [⟨some (enc "GREAT PRODUCT AND FAST DELIVERY TIME"), some 5, none⟩,
   ⟨some (enc "great product and fast delivery time"), some 4, none⟩]

/-- The cleaned record produced from `dfSingleton`. -/
def cleanedSingletonRec : CleanedRecord :=
  ⟨some (enc "a perfectly fine review text here"), some 3, none, some 33, some 6⟩

/-! ## Contract C: executive summary (`generate_executive_summary_template`)

A row of the final frame: cleaned text, rating, sentiment category and
(when the categorizer has run) the assigned topic.  Whether the
`ai_category` column exists at all is a frame-level fact, modelled as
the `hasAiCategory` flag. -/
structure ScoredRecord where
  text : PyStr
  score : ℚ
  sentiment_category : String
  ai_category : Option String
deriving DecidableEq

/-- `df['Score'].mean()`: the pandas mean of an empty column is NaN,
modelled as `none`. -/
def scoreMean (df : List ScoredRecord) : Option ℚ :=
  if df.length = 0 then none
  else some ((df.map (fun r => r.score)).sum / (df.length : ℚ))

/-- `df['sentiment_category'].value_counts(normalize=True).get(cat, 0)`:
the share of records in the category.  On an empty frame the series is
empty and `get` returns the default 0; rational division by zero is
also 0, so the plain ratio is faithful in both cases. -/
def sentimentShare (df : List ScoredRecord) (cat : String) : ℚ :=
  ((df.filter (fun r => r.sentiment_category == cat)).length : ℚ) / (df.length : ℚ)

/-- Python float formatting of a possibly-NaN mean:
f-string {m:.2f} prints NaN as "nan". -/
def fmtMeanPy (m : Option ℚ) : String :=
  match m with
  | none => "nan"
  | some q => fmtFixed 2 q

/-- Insert thousands separators into a reversed digit list
(f-string {n:,}). -/
def commaRev : List Char → List Char
  | a :: b :: c :: d :: rest => a :: b :: c :: ',' :: commaRev (d :: rest)
  | l => l

/-- f-string {n:,}: decimal digits grouped in threes by commas. -/
def fmtComma (n : Nat) : String :=
  String.mk (commaRev (toString n).data.reverse).reverse

/-- Keep the first occurrence of each element, in input order. -/
def dedupFirst {β : Type} [DecidableEq β] (l : List β) : List β :=
  dedupByKey (fun x => x) l []

/-- `Series.value_counts()`: distinct values with their counts, sorted
descending by count (stably, so ties keep first-occurrence order; no
verified property relies on the tie order). -/
def valueCounts (l : List String) : List (String × Nat) :=
  ((dedupFirst l).map (fun c => (c, (l.filter (fun x => x == c)).length))).mergeSort
    (fun a b => decide (b.2 ≤ a.2))

/-- Lines 90–105 of `03_ai_insights.py`: the issues phrase — top three
`ai_category` values among Negative records with their percentage
share, or the fixed fallback phrase when the column is absent or the
Negative subset is empty. -/
def issuesText (hasAiCategory : Bool) (df : List ScoredRecord) : String :=
  if hasAiCategory then
    let neg_df := df.filter (fun r => r.sentiment_category == "Negative")
    if 0 < neg_df.length then
      String.intercalate ", "
        (((valueCounts (neg_df.map (fun r => r.ai_category.getD ""))).take 3).map
          (fun p =>
            p.1 ++ " (" ++ fmtFixed 0 ((p.2 : ℚ) / (neg_df.length : ℚ) * 100) ++
              "% of negative reviews)"))
    else "product quality, shipping, and customer service"
  else "product quality, shipping, and customer service"

/-- `generate_executive_summary_template` from `03_ai_insights.py`
(lines 81–120): three fixed prose paragraphs interpolating the total
count, mean rating, sentiment percentages and issues phrase.  The
source contains no validation and no raise: the function is total and
always returns the interpolated text. -/
def generate_executive_summary_template
    (hasAiCategory : Bool) (df : List ScoredRecord) : String :=
  let para1 := "Analysis of " ++ fmtComma df.length ++
    " customer reviews reveals a rating average of " ++ fmtMeanPy (scoreMean df) ++
    " out of 5 stars, with " ++ fmtFixed 0 (sentimentShare df "Positive" * 100) ++
    "% expressing positive sentiment, " ++
    fmtFixed 0 (sentimentShare df "Negative" * 100) ++ "% negative, and " ++
    fmtFixed 0 (sentimentShare df "Neutral" * 100) ++
    "% neutral. This distribution suggests that while the majority of customers are satisfied, there is a significant segment experiencing issues that require attention."
  let para2 := "The primary concerns identified in negative feedback center around " ++
    issuesText hasAiCategory df ++
    ". These recurring themes represent the most critical areas for improvement and offer clear opportunities to enhance customer satisfaction. Addressing these specific pain points could potentially convert a substantial portion of dissatisfied customers into brand advocates."
  let para3 := "Moving forward, we recommend prioritizing improvements in the areas with highest negative mention rates. Implementing targeted solutions for these top issues could result in measurable improvements to both customer satisfaction scores and repeat purchase rates. Regular monitoring of review sentiment will help track the effectiveness of any corrective measures implemented."
  para1 ++ "\n\n" ++ para2 ++ "\n\n" ++ para3

/-- C5: `sentiment_category` is a pure function of the compound score
with fixed thresholds: Positive iff the score is ≥ 0.05, Negative iff
it is ≤ -0.05, Neutral otherwise; the three cases are exhaustive and
mutually exclusive. -/
theorem sentiment_category_thresholds (c : ℚ) :
    (categorize_sentiment c = "Positive" ↔ c ≥ 0.05) ∧
    (categorize_sentiment c = "Negative" ↔ c ≤ -0.05) ∧
    (categorize_sentiment c = "Neutral" ↔ (-0.05 < c ∧ c < 0.05)) ∧
    (categorize_sentiment c = "Positive" ∨ categorize_sentiment c = "Negative" ∨
      categorize_sentiment c = "Neutral") ∧
    ¬(categorize_sentiment c = "Positive" ∧ categorize_sentiment c = "Negative") ∧
    ¬(categorize_sentiment c = "Positive" ∧ categorize_sentiment c = "Neutral") ∧
    ¬(categorize_sentiment c = "Negative" ∧ categorize_sentiment c = "Neutral") := by
  unfold categorize_sentiment
  by_cases h1 : c ≥ 0.05
  · rw [if_pos h1]
    refine ⟨⟨fun _ => h1, fun _ => rfl⟩, ?_, ?_, Or.inl rfl, ?_, ?_, ?_⟩
    · exact ⟨fun h => absurd h (by decide), fun h => absurd h1 (by intro hc; linarith)⟩
    · exact ⟨fun h => absurd h (by decide), fun h => absurd h1 (by intro hc; linarith [h.2])⟩
    · exact fun h => absurd h.2 (by decide)
    · exact fun h => absurd h.2 (by decide)
    · exact fun h => absurd h.1 (by decide)
  · by_cases h2 : c ≤ -0.05
    · rw [if_neg h1, if_pos h2]
      refine ⟨?_, ⟨fun _ => h2, fun _ => rfl⟩, ?_, Or.inr (Or.inl rfl), ?_, ?_, ?_⟩
      · exact ⟨fun h => absurd h (by decide), fun h => absurd h h1⟩
      · exact ⟨fun h => absurd h (by decide), fun h => absurd h2 (by intro hc; linarith [h.1])⟩
      · exact fun h => absurd h.1 (by decide)
      · exact fun h => absurd h.1 (by decide)
      · exact fun h => absurd h.2 (by decide)
    · rw [if_neg h1, if_neg h2]
      have h1' : c < 0.05 := not_le.mp h1
      have h2' : -0.05 < c := not_le.mp h2
      refine ⟨?_, ?_, ⟨fun _ => ⟨h2', h1'⟩, fun _ => rfl⟩, Or.inr (Or.inr rfl), ?_, ?_, ?_⟩
      · exact ⟨fun h => absurd h (by decide), fun h => absurd h h1⟩
      · exact ⟨fun h => absurd h (by decide), fun h => absurd h h2⟩
      · exact fun h => absurd h.1 (by decide)
      · exact fun h => absurd h.1 (by decide)
      · exact fun h => absurd h.1 (by decide)

theorem lowerNat_idem (n : Nat) : lowerNat (lowerNat n) = lowerNat n := by
  by_cases h : 65 ≤ n ∧ n ≤ 90
  · have h1 : lowerNat n = n + 32 := by unfold lowerNat; exact if_pos h
    have h2 : lowerNat (n + 32) = n + 32 := by unfold lowerNat; exact if_neg (by omega)
    rw [h1, h2]
  · have h1 : lowerNat n = n := by unfold lowerNat; exact if_neg h
    rw [h1, h1]

theorem lowerStr_idem (s : PyStr) : lowerStr (lowerStr s) = lowerStr s := by
  induction s with
  | nil => rfl
  | cons c cs ih =>
    simp only [lowerStr, List.map_cons] at ih ⊢
    rw [lowerNat_idem]
    exact congrArg _ ih

/-- C6: the categorizer returns exactly one of the seven topic labels,
chosen as the first matching keyword set in the fixed priority order
Shipping/Delivery > Customer Service > Product Quality > Taste/Flavor >
Price/Value > Packaging, falling back to Other when no set matches; in
particular any text matching a shipping keyword (even if it also
matches a quality keyword) resolves to Shipping/Delivery. -/
theorem categorize_priority_order (s : PyStr) :
    categorize_review_rule_based s ∈
      ["Shipping/Delivery", "Customer Service", "Product Quality", "Taste/Flavor",
       "Price/Value", "Packaging", "Other"] ∧
    (categorize_review_rule_based s = "Shipping/Delivery" ↔
      anyKeyword catKwShipping (lowerStr s) = true) ∧
    (categorize_review_rule_based s = "Customer Service" ↔
      (anyKeyword catKwShipping (lowerStr s) = false ∧
       anyKeyword catKwService (lowerStr s) = true)) ∧
    (categorize_review_rule_based s = "Product Quality" ↔
      (anyKeyword catKwShipping (lowerStr s) = false ∧
       anyKeyword catKwService (lowerStr s) = false ∧
       anyKeyword catKwQuality (lowerStr s) = true)) ∧
    (categorize_review_rule_based s = "Taste/Flavor" ↔
      (anyKeyword catKwShipping (lowerStr s) = false ∧
       anyKeyword catKwService (lowerStr s) = false ∧
       anyKeyword catKwQuality (lowerStr s) = false ∧
       anyKeyword catKwTaste (lowerStr s) = true)) ∧
    (categorize_review_rule_based s = "Price/Value" ↔
      (anyKeyword catKwShipping (lowerStr s) = false ∧
       anyKeyword catKwService (lowerStr s) = false ∧
       anyKeyword catKwQuality (lowerStr s) = false ∧
       anyKeyword catKwTaste (lowerStr s) = false ∧
       anyKeyword catKwPrice (lowerStr s) = true)) ∧
    (categorize_review_rule_based s = "Packaging" ↔
      (anyKeyword catKwShipping (lowerStr s) = false ∧
       anyKeyword catKwService (lowerStr s) = false ∧
       anyKeyword catKwQuality (lowerStr s) = false ∧
       anyKeyword catKwTaste (lowerStr s) = false ∧
       anyKeyword catKwPrice (lowerStr s) = false ∧
       anyKeyword catKwPackaging (lowerStr s) = true)) ∧
    (categorize_review_rule_based s = "Other" ↔
      (anyKeyword catKwShipping (lowerStr s) = false ∧
       anyKeyword catKwService (lowerStr s) = false ∧
       anyKeyword catKwQuality (lowerStr s) = false ∧
       anyKeyword catKwTaste (lowerStr s) = false ∧
       anyKeyword catKwPrice (lowerStr s) = false ∧
       anyKeyword catKwPackaging (lowerStr s) = false)) ∧
    (anyKeyword catKwShipping (lowerStr s) = true ∧
       anyKeyword catKwQuality (lowerStr s) = true →
     categorize_review_rule_based s = "Shipping/Delivery") := by
  unfold categorize_review_rule_based
  by_cases h1 : anyKeyword catKwShipping (lowerStr s) = true
  · simp [h1]
  · rw [Bool.not_eq_true] at h1
    by_cases h2 : anyKeyword catKwService (lowerStr s) = true
    · simp [h1, h2]
    · rw [Bool.not_eq_true] at h2
      by_cases h3 : anyKeyword catKwQuality (lowerStr s) = true
      · simp [h1, h2, h3]
      · rw [Bool.not_eq_true] at h3
        by_cases h4 : anyKeyword catKwTaste (lowerStr s) = true
        · simp [h1, h2, h3, h4]
        · rw [Bool.not_eq_true] at h4
          by_cases h5 : anyKeyword catKwPrice (lowerStr s) = true
          · simp [h1, h2, h3, h4, h5]
          · rw [Bool.not_eq_true] at h5
            by_cases h6 : anyKeyword catKwPackaging (lowerStr s) = true
            · simp [h1, h2, h3, h4, h5, h6]
            · rw [Bool.not_eq_true] at h6
              simp [h1, h2, h3, h4, h5, h6]

/-- C9: topic categorization is case-insensitive — lowercasing the
input first never changes the assigned category, and in particular
"SHIPPING delay" and "shipping delay" get the same category. -/
theorem categorize_case_insensitive :
    (∀ s : PyStr,
      categorize_review_rule_based (lowerStr s) = categorize_review_rule_based s) ∧
    categorize_review_rule_based (enc "SHIPPING delay") =
      categorize_review_rule_based (enc "shipping delay") := by
  constructor
  · intro s
    unfold categorize_review_rule_based
    rw [lowerStr_idem]
  · decide

/-- C10: keyword matching is raw substring containment without word
boundaries, so the text "chocolate" — which contains the shipping
keyword "late" as a substring and no other keyword — is categorized
as Shipping/Delivery. -/
theorem chocolate_categorized_as_shipping :
    strIn (enc "late") (enc "chocolate") = true ∧
    categorize_review_rule_based (enc "chocolate") = "Shipping/Delivery" := by
  decide

/-- C3 counterexample: the claim that Contracts A and B use the same
per-topic keyword sets fails — on the text "bad", Contract B counts a
Product Quality mention (keyword "bad" is in the dictionary set) while
the categorizer's Product Quality set does not match it at all. -/
theorem contract_keyword_sets_differ :
    anyKeyword catKwQuality (lowerStr (enc "bad")) = false ∧
    (∃ q ∈ topic_keywords, q.1 = "Product Quality" ∧
      anyKeyword q.2 (lowerStr (enc "bad")) = true) := by
  decide

theorem anyKeyword_mono {ks₁ ks₂ : List PyStr} (hsub : ∀ k ∈ ks₁, k ∈ ks₂)
    {t : PyStr} (h : anyKeyword ks₁ t = true) : anyKeyword ks₂ t = true := by
  rcases List.any_eq_true.mp h with ⟨k, hk, hin⟩
  exact List.any_eq_true.mpr ⟨k, hsub k hk, hin⟩

/-- C3 (amended): each of the categorizer's six keyword sets is a
subset of the topic-dictionary set for the same topic, so whenever a
text matches a topic under Contract A it is also counted toward that
topic by Contract B; the converse fails because Contract B's sets
contain extra keywords. -/
theorem contractA_matches_imply_contractB :
    (∀ p ∈ categorizerKeywords, ∀ q ∈ topic_keywords,
      p.1 = q.1 → ∀ k ∈ p.2, k ∈ q.2) ∧
    (∀ p ∈ categorizerKeywords, ∀ q ∈ topic_keywords, p.1 = q.1 →
      ∀ t : PyStr, anyKeyword p.2 t = true → anyKeyword q.2 t = true) := by
  have hsub : ∀ p ∈ categorizerKeywords, ∀ q ∈ topic_keywords,
      p.1 = q.1 → ∀ k ∈ p.2, k ∈ q.2 := by decide
  exact ⟨hsub, fun p hp q hq hpq t => anyKeyword_mono (hsub p hp q hq hpq)⟩

/-- Witness for C3 (amended) at a concrete topic and text: the
Shipping/Delivery pair and the text "late arrival". -/
theorem contractA_matches_imply_contractB_witness :
    anyKeyword catKwShipping (enc "late arrival") = true ∧
    anyKeyword
      [enc "shipping", enc "delivery", enc "arrived", enc "package", enc "late",
       enc "delayed", enc "never received", enc "lost", enc "weeks"]
      (enc "late arrival") = true := by
  refine ⟨by decide, ?_⟩
  exact contractA_matches_imply_contractB.2
    ("Shipping/Delivery", catKwShipping) (by decide)
    ("Shipping/Delivery",
      [enc "shipping", enc "delivery", enc "arrived", enc "package", enc "late",
       enc "delayed", enc "never received", enc "lost", enc "weeks"]) (by decide)
    rfl (enc "late arrival") (by decide)

/-- C7: for a non-empty Negative subset, the ranked topic report holds
at most five entries, each entry is a topic of the dictionary with
nonzero match count and prevalence exactly count/total·100, the
entries are sorted descending by prevalence, and the rendered report
string is exactly the line rendering of those entries (one decimal
place). -/
theorem topic_report_ranked (neg : List PyStr) (_hne : neg ≠ []) :
    (topReport neg).length ≤ 5 ∧
    (∀ p ∈ topReport neg, ∃ q ∈ topic_keywords, p.1 = q.1 ∧
        0 < topicCount q.2 neg ∧
        p.2 = (topicCount q.2 neg : ℚ) / (neg.length : ℚ) * 100) ∧
    List.Pairwise (fun a b : String × ℚ => b.2 ≤ a.2) (topReport neg) ∧
    extract_topics_rule_based neg =
      String.intercalate "\n" (topicReportLines 1 (topReport neg)) := by
  refine ⟨?_, ?_, ?_, rfl⟩
  · rw [topReport, List.length_take]
    exact min_le_left 5 _
  · intro p hp
    have hp1 : p ∈ sorted_topics neg :=
      (List.take_sublist 5 _).mem hp
    have hp2 : p ∈ topic_percentages neg := by
      rw [sorted_topics] at hp1
      exact List.mem_mergeSort.mp hp1
    rw [topic_percentages] at hp2
    rcases List.mem_filterMap.mp hp2 with ⟨q, hq, hqp⟩
    refine ⟨q, hq, ?_⟩
    by_cases hc : 0 < topicCount q.2 neg
    · rw [if_pos hc] at hqp
      have := Option.some.inj hqp
      exact ⟨by rw [← this], hc, by rw [← this]⟩
    · rw [if_neg hc] at hqp
      exact absurd hqp (by simp)
  · have hs : List.Pairwise
        (fun a b : String × ℚ => (decide (b.2 ≤ a.2)) = true)
        (sorted_topics neg) := by
      apply List.sorted_mergeSort
      · intro a b c hab hbc
        have h1 : b.2 ≤ a.2 := of_decide_eq_true hab
        have h2 : c.2 ≤ b.2 := of_decide_eq_true hbc
        exact decide_eq_true (le_trans h2 h1)
      · intro a b
        rcases le_total b.2 a.2 with h | h
        · simp [h]
        · simp [h]
    have hs2 : List.Pairwise (fun a b : String × ℚ => b.2 ≤ a.2)
        (sorted_topics neg) :=
      hs.imp (fun h => of_decide_eq_true h)
    exact hs2.sublist (List.take_sublist 5 _)

/-- Witness for C7 at a concrete two-review Negative subset. -/
theorem topic_report_ranked_witness :
    (negExample ≠ []) ∧
    ((topReport negExample).length ≤ 5 ∧
     (∀ p ∈ topReport negExample, ∃ q ∈ topic_keywords, p.1 = q.1 ∧
         0 < topicCount q.2 negExample ∧
         p.2 = (topicCount q.2 negExample : ℚ) / (negExample.length : ℚ) * 100) ∧
     List.Pairwise (fun a b : String × ℚ => b.2 ≤ a.2) (topReport negExample) ∧
     extract_topics_rule_based negExample =
       String.intercalate "\n" (topicReportLines 1 (topReport negExample))) :=
  ⟨by decide, topic_report_ranked negExample (by decide)⟩

theorem sampleDraw_length {α : Type} :
    ∀ (n s : Nat) (xs : List α), n ≤ xs.length → (sampleDraw s n xs).length = n := by
  intro n
  induction n with
  | zero => intro s xs _; cases xs <;> rfl
  | succ m ih =>
    intro s xs hle
    cases xs with
    | nil => simp at hle
    | cons x rest =>
      rw [sampleDraw, List.length_cons,
        ih (lcgNext s) ((x :: rest).eraseIdx (s % (x :: rest).length))
          (by
            rw [List.length_eraseIdx]
            have hm : s % (x :: rest).length < (x :: rest).length :=
              Nat.mod_lt _ (Nat.succ_pos _)
            rw [if_pos hm]
            simp only [List.length_cons] at hle ⊢
            omega)]

/-- C4 counterexample: with `sample_size = 0` — which is "given and
smaller than the input count" for any non-empty input — the code's
truthiness guard (`if sample_size and sample_size < len(df)`) skips
sampling and passes every record through, instead of drawing exactly
zero records. -/
theorem sample_size_zero_counterexample :
    0 < dfSingleton.length ∧ (clean_sample (some 0) dfSingleton).length ≠ 0 := by
  decide

/-- C4 (amended): if `sample_size` is given, nonzero, and smaller than
the input count, the sampling step draws exactly `sample_size` records
with the fixed seed 42 (the draw is a pure function of the input, so
the same input always yields the identical subset); otherwise — when
`sample_size` is absent, zero, or not smaller than the input count —
every input record passes through unchanged. -/
theorem clean_sample_spec (df : List RawRecord) (n : Nat) :
    (0 < n → n < df.length → (clean_sample (some n) df).length = n ∧
      clean_sample (some n) df = sampleDraw 42 n df) ∧
    (¬(0 < n ∧ n < df.length) → clean_sample (some n) df = df) ∧
    clean_sample none df = df := by
  refine ⟨?_, ?_, rfl⟩
  · intro hpos hlt
    have hc : n ≠ 0 ∧ n < df.length := ⟨Nat.pos_iff_ne_zero.mp hpos, hlt⟩
    constructor
    · show (if n ≠ 0 ∧ n < df.length then sampleDraw 42 n df else df).length = n
      rw [if_pos hc]
      exact sampleDraw_length n 42 df (le_of_lt hlt)
    · show (if n ≠ 0 ∧ n < df.length then sampleDraw 42 n df else df) = sampleDraw 42 n df
      rw [if_pos hc]
  · intro hnc
    show (if n ≠ 0 ∧ n < df.length then sampleDraw 42 n df else df) = df
    rw [if_neg (by push_neg at hnc ⊢; intro h0; exact hnc (Nat.pos_iff_ne_zero.mpr h0))]

/-- Witness for C4 (amended) at a concrete three-record input with
`sample_size = 2`. -/
theorem clean_sample_spec_witness :
    (0 < 2 ∧ 2 < dfThree.length) ∧
    ((clean_sample (some 2) dfThree).length = 2 ∧
      clean_sample (some 2) dfThree = sampleDraw 42 2 dfThree) :=
  ⟨by decide, (clean_sample_spec dfThree 2).1 (by decide) (by decide)⟩

/-- C1 counterexample: de-duplication runs on the raw `Text` column
before the text is lowercased, so two records that differ only in
letter case both survive the Cleaner and end up with identical
cleaned (normalized) text — the surviving normalized texts are not
pairwise distinct. -/
theorem cleaned_text_duplicates_survive :
    (clean_reviews none dfCaseDup).length = 2 ∧
    ¬ List.Pairwise (fun a b : CleanedRecord => a.text ≠ b.text)
        (clean_reviews none dfCaseDup) := by
  decide

theorem dedupByKey_pairwise {α β : Type} [DecidableEq β] (key : α → β) :
    ∀ (l : List α) (seen : List β),
      (∀ x ∈ dedupByKey key l seen, key x ∉ seen) ∧
      List.Pairwise (fun a b => key a ≠ key b) (dedupByKey key l seen) := by
  intro l
  induction l with
  | nil =>
    intro seen
    exact ⟨fun x hx => absurd hx (List.not_mem_nil x), List.Pairwise.nil⟩
  | cons x xs ih =>
    intro seen
    show (∀ y ∈ (if key x ∈ seen then dedupByKey key xs seen
        else x :: dedupByKey key xs (key x :: seen)), key y ∉ seen) ∧
      List.Pairwise _ (if key x ∈ seen then dedupByKey key xs seen
        else x :: dedupByKey key xs (key x :: seen))
    by_cases h : key x ∈ seen
    · rw [if_pos h]
      exact ih seen
    · rw [if_neg h]
      constructor
      · intro y hy
        rcases List.mem_cons.mp hy with rfl | hy2
        · exact h
        · exact fun hc =>
            (ih (key x :: seen)).1 y hy2 (List.mem_cons_of_mem _ hc)
      · refine List.Pairwise.cons ?_ (ih (key x :: seen)).2
        intro b hb
        have hb2 := (ih (key x :: seen)).1 b hb
        intro hkey
        exact hb2 (by rw [← hkey]; exact List.mem_cons_self _ _)

/-- C1 (amended): the duplicate-drop stage of the Cleaner keys on the
raw `Text` value (before normalization), keeping the first occurrence
in input order, so the records it passes on have pairwise-distinct raw
texts; after the subsequent lowercase/strip normalization, two
survivors may nevertheless share identical cleaned text. -/
theorem dedup_by_raw_text (ss : Option Nat) (df : List RawRecord) :
    List.Pairwise (fun a b : RawRecord => a.text ≠ b.text)
      (clean_dedup (clean_dropna (clean_sample ss df))) :=
  (dedupByKey_pairwise (fun r => r.text)
    (clean_dropna (clean_sample ss df)) []).2

theorem mem_pyStrip {c : Nat} {u : PyStr} (h : c ∈ pyStrip u) : c ∈ u := by
  rw [pyStrip, List.mem_reverse] at h
  have h2 := List.Sublist.mem h ((List.dropWhile_suffix isSpaceNat).sublist)
  rw [List.mem_reverse] at h2
  exact List.Sublist.mem h2 ((List.dropWhile_suffix isSpaceNat).sublist)

theorem lowerStr_fixed {t : PyStr} (h : ∀ c ∈ t, lowerNat c = c) : lowerStr t = t := by
  induction t with
  | nil => rfl
  | cons c cs ih =>
    rw [lowerStr, List.map_cons, h c (List.mem_cons_self _ _)]
    exact congrArg _ (ih fun d hd => h d (List.mem_cons_of_mem _ hd))

theorem mem_lowerStr_fixed {c : Nat} {s : PyStr} (h : c ∈ lowerStr s) :
    lowerNat c = c := by
  rcases List.mem_map.mp h with ⟨d, _, rfl⟩
  have := lowerNat_idem d
  exact this

theorem pyStrip_head_not_space (u : PyStr) (c : Nat)
    (h : (pyStrip u).head? = some c) : isSpaceNat c = false := by
  rw [pyStrip, List.head?_reverse] at h
  obtain ⟨pre, hpre⟩ :=
    List.dropWhile_suffix (l := (u.dropWhile isSpaceNat).reverse) isSpaceNat
  have hlast : (u.dropWhile isSpaceNat).reverse.getLast? = some c := by
    rw [← hpre, List.getLast?_append, h]
    rfl
  rw [List.getLast?_reverse] at hlast
  have hd := List.head?_dropWhile_not isSpaceNat u
  rw [hlast] at hd
  exact hd

theorem pyStrip_last_not_space (u : PyStr) (c : Nat)
    (h : (pyStrip u).getLast? = some c) : isSpaceNat c = false := by
  rw [pyStrip, List.getLast?_reverse] at h
  have hd := List.head?_dropWhile_not isSpaceNat (u.dropWhile isSpaceNat).reverse
  rw [h] at hd
  exact hd

/-- C8: every record surviving the Cleaner carries text that is
strictly longer than 20 characters, has no leading or trailing
whitespace, and is fully lowercase (lowercasing it again changes
nothing). -/
theorem cleaned_text_invariants (ss : Option Nat) (df : List RawRecord) :
    ∀ r ∈ clean_reviews ss df, ∃ t : PyStr, r.text = some t ∧
      20 < t.length ∧
      lowerStr t = t ∧
      (∀ c, t.head? = some c → isSpaceNat c = false) ∧
      (∀ c, t.getLast? = some c → isSpaceNat c = false) := by
  intro r hr
  rw [clean_reviews, clean_features] at hr
  rcases List.mem_map.mp hr with ⟨r1, hr1, rfl⟩
  rw [clean_lenFilter] at hr1
  rcases List.mem_filter.mp hr1 with ⟨hr2, hcond⟩
  rw [clean_normalize] at hr2
  rcases List.mem_map.mp hr2 with ⟨r0, _, rfl⟩
  cases ht : r0.text with
  | none =>
    rw [ht] at hcond
    simp at hcond
  | some t0 =>
    rw [ht] at hcond
    refine ⟨pyStrip (lowerStr t0), rfl, ?_, ?_, ?_, ?_⟩
    · exact of_decide_eq_true hcond
    · exact lowerStr_fixed fun c hc => mem_lowerStr_fixed (mem_pyStrip hc)
    · exact pyStrip_head_not_space (lowerStr t0)
    · exact pyStrip_last_not_space (lowerStr t0)

/-- Witness for C8 at a concrete input and one of its surviving
records. -/
theorem cleaned_text_invariants_witness :
    (cleanedSingletonRec ∈ clean_reviews none dfSingleton) ∧
    (∃ t : PyStr, cleanedSingletonRec.text = some t ∧
      20 < t.length ∧
      lowerStr t = t ∧
      (∀ c, t.head? = some c → isSpaceNat c = false) ∧
      (∀ c, t.getLast? = some c → isSpaceNat c = false)) :=
  ⟨by decide,
   cleaned_text_invariants none dfSingleton cleanedSingletonRec (by decide)⟩

/-- C2 evidence: summarizing the empty dataset does not raise any
validation error — `generate_executive_summary_template` is a total
function with no error path, and on zero records it silently returns
the templated text with the NaN mean interpolated: the output reports
"Analysis of 0 customer reviews" and a rating average of "nan". -/
theorem empty_dataset_summary_produces_nan :
    strIn (enc "rating average of nan out of 5 stars")
        (enc (generate_executive_summary_template true [])) = true ∧
    strIn (enc "Analysis of 0 customer reviews")
        (enc (generate_executive_summary_template true [])) = true := by
  decide

/-- Witness for C5 at a concrete compound score. -/
theorem sentiment_category_thresholds_witness :
    categorize_sentiment (1/10) = "Positive" :=
  (sentiment_category_thresholds (1/10)).1.mpr (by norm_num)

/-- Witness for C6 at a concrete text containing both a shipping and a
quality keyword. -/
theorem categorize_priority_order_witness :
    (anyKeyword catKwShipping (lowerStr (enc "shipping was late and quality poor")) = true ∧
     anyKeyword catKwQuality (lowerStr (enc "shipping was late and quality poor")) = true) ∧
    categorize_review_rule_based (enc "shipping was late and quality poor") =
      "Shipping/Delivery" :=
  ⟨by decide,
   (categorize_priority_order (enc "shipping was late and quality poor")).2.2.2.2.2.2.2.2
     (by decide)⟩
